import Mathlib

set_option linter.unusedVariables false

/-! Verification of the value pipeline of the FreeIPA parameter system
(`src/ipalib/parameters.py`): runtime values, the `Param` base engine
(normalize / convert / validate / get_default), `DefaultFrom`, the
default-hook selection in `Param.__init__`, the `Data.__init__` length
checks, the `Int._convert_scalar` conversion and the `AccessTime`
time-grammar checker. -/

/-- Python floats modelled as exact fractions (numerator over positive
denominator), kept unreduced so every computation stays in integer
arithmetic; the truncation claims depend only on the represented value. -/
structure PFloat where
  num : Int
  den : Nat := 1
deriving DecidableEq

/-- Canonical runtime values flowing through the pipeline, one constructor
per Python runtime type occurring in `parameters.py`.  Python 2 `int` and
`long` are merged into `int` (the code treats them alike). -/
inductive PValue
  | none
  | bool (b : Bool)
  | int (n : Int)
  | float (f : PFloat)
  | str (s : String)
  | uni (s : String)
  | tup (vs : List PValue)
  | list (vs : List PValue)

/-- Python `type(value)` tags for the values above. -/
inductive PType
  | noneT | boolT | intT | floatT | strT | uniT | tupleT | listT
deriving DecidableEq

/-- The `type(value)` of a runtime value. -/
def typeOf : PValue → PType
  | PValue.none => PType.noneT
  | PValue.bool _ => PType.boolT
  | PValue.int _ => PType.intT
  | PValue.float _ => PType.floatT
  | PValue.str _ => PType.strT
  | PValue.uni _ => PType.uniT
  | PValue.tup _ => PType.tupleT
  | PValue.list _ => PType.listT

/-- Python `value is None`. -/
def isNoneV : PValue → Bool
  | PValue.none => true
  | _ => false

/-- Modelled from the spec: membership in the `NULLS` constant imported from
`constants.py`, which is not under `src/`.  The spec calls these the
null-equivalents: absent/None, empty (byte or text) string, empty
sequence; Python membership uses `==`, under which a bytes and a text
empty string are equal. -/
def pyIsNull : PValue → Bool
  | PValue.none => true
  | PValue.str s => s = ""
  | PValue.uni s => s = ""
  | PValue.tup vs => vs.isEmpty
  | PValue.list vs => vs.isEmpty
  | _ => false

/-- Python truthiness of a runtime value (used by `List.normalize`). -/
def pyTruthy : PValue → Bool
  | PValue.none => false
  | PValue.bool b => b
  | PValue.int n => n != 0
  | PValue.float f => f.num != 0
  | PValue.str s => s != ""
  | PValue.uni s => s != ""
  | PValue.tup vs => !vs.isEmpty
  | PValue.list vs => !vs.isEmpty

/-- Python `isinstance(value, tuple)`. -/
def isTupleV : PValue → Bool
  | PValue.tup _ => true
  | _ => false

/-- The elements of a native sequence (`type(value) in (tuple, list)`). -/
def seqElems : PValue → Option (List PValue)
  | PValue.tup vs => some vs
  | PValue.list vs => some vs
  | _ => Option.none

/-- The element list `convert` iterates over for a multivalue parameter:
a native sequence yields its elements, a bare scalar is wrapped into a
one-element sequence (`value = (value,)`, parameters.py line 695). -/
def elemsOrSelf (value : PValue) : List PValue :=
  match seqElems value with
  | some vs => vs
  | Option.none => [value]

/-- A keyword bag (the `**kw` dictionaries of `get_default` and
`DefaultFrom.__call__`). -/
abbrev KwBag := List (String × PValue)

/-- Python `kw.get(k, None)` on a keyword bag. -/
def kwGet (kw : KwBag) (k : String) : PValue :=
  match kw.find? (fun p => p.1 = k) with
  | some p => p.2
  | Option.none => PValue.none

/-- The `DefaultFrom` class (parameters.py lines 115-230): a callback over a
fixed ordered tuple of keys.  A raising callback is modelled as returning
`Except.error` (the source swallows any `StandardError`). -/
structure DefaultFrom where
  keys : List String
  callback : List PValue → Except Unit PValue

/-- `DefaultFrom.__call__` (parameters.py lines 215-230): gather
`kw.get(k, None)` for every key; if any is `None` return `None` without
calling the callback; otherwise call the callback, swallowing any failure
into `None`. -/
def DefaultFrom.call (df : DefaultFrom) (kw : KwBag) : PValue :=
  let vals := df.keys.map (fun k => kwGet kw k)
  if vals.any isNoneV then PValue.none
  else
    match df.callback vals with
    | Except.ok v => v
    | Except.error _ => PValue.none

/-- The resolved `_get_default` slot of a `Param` (parameters.py lines
408-420): no hook, a `DefaultFrom` hook, or a bare `create_default`
callable.  A raising `create_default` is `Except.error` (it propagates). -/
inductive Hook
  | noHook
  | fromDF (df : DefaultFrom)
  | fromCreate (f : KwBag → Except Unit PValue)

/-- `Param.__init__`'s mutual-exclusion check and `_get_default`
assignment (parameters.py lines 408-420): both hooks set is a
`ValueError`, otherwise whichever is set (or nothing) becomes the slot. -/
def resolve_default_hook (default_from : Option DefaultFrom)
    (create_default : Option (KwBag → Except Unit PValue)) : Except String Hook :=
  match default_from with
  | some df =>
      match create_default with
      | some _ => Except.error "cannot have both default_from and create_default"
      | Option.none => Except.ok (Hook.fromDF df)
  | Option.none =>
      match create_default with
      | some f => Except.ok (Hook.fromCreate f)
      | Option.none => Except.ok Hook.noHook

/-- The concrete `Param` subclasses whose scalar conversion/validation the
claims exercise: the generic base (`Param` with a given `type` attribute),
`Str`, `Int` and `List`. -/
inductive Variant
  | base (t : PType)
  | strV
  | intV
  | listV
deriving DecidableEq

/-- The class attribute `type` of each variant (`List.type` is `tuple`,
parameters.py line 1388). -/
def variantType : Variant → PType
  | Variant.base t => t
  | Variant.strV => PType.uniT
  | Variant.intV => PType.intT
  | Variant.listV => PType.tupleT

/-- Errors raised by the pipeline, mirroring the taxonomy used in
`parameters.py` (ConversionError, RequirementError, ValidationError,
TypeError, ValueError).  Message strings are carried verbatim where the
claims depend on them and abbreviated otherwise. -/
inductive PErr
  | conversion (name : String) (index : Option Nat) (error : String)
  | requirement (name : String)
  | validationType (name : String) (error : String)
  | validationRule (name : String) (value : PValue) (index : Option Nat) (error : String)
  | typeErr (error : String)
  | valueErr (error : String)

/-- A parameter instance after construction: the fields of `Param` the
pipeline reads.  `rules` is the composed `all_rules` sequence (class rules
followed by instance rules, parameters.py line 435); a rule takes the
value and returns an error message or nothing.  `normalizer` may raise
(`Except.error`) and may return any value.  `tokenize` stands for the
external `csv.reader`-based tokenizer used only by `List.normalize`
(modelled abstractly; no claim depends on its output). -/
structure Param where
  name : String
  cli_name : String
  variant : Variant
  required : Bool := true
  multivalue : Bool := false
  query : Bool := false
  normalizer : Option (String → Except Unit PValue) := Option.none
  rules : List (PValue → Option String) := []
  default : PValue := PValue.none
  hook : Hook := Hook.noHook
  tokenize : String → List String := fun _ => []

/-- Digits-to-number accumulation used to model Python `int` parsing of a
decimal digit string. -/
def digitsToNat (l : List Char) : Nat :=
  l.foldl (fun a c => 10 * a + (c.toNat - 48)) 0

/-- Numeric value of a digit string (Python `int(t)` for the
already-numeric-checked fields of the time grammar). -/
def strToNat (s : String) : Nat := digitsToNat s.toList

/-- One optional leading sign, as consumed by Python numeric literals. -/
def parseSign : List Char → (Int × List Char)
  | '+' :: rest => (1, rest)
  | '-' :: rest => (-1, rest)
  | l => (1, l)

/-- Split a leading run of decimal digits. -/
def takeDigits (l : List Char) : List Char × List Char :=
  (l.takeWhile Char.isDigit, l.dropWhile Char.isDigit)

/-- Exponent part of a Python float literal (after the `e`/`E`): scale the
mantissa fraction by a power of ten. -/
def parseExpPart (m : PFloat) (l : List Char) : Option PFloat :=
  let (sg, r) := parseSign l
  let (d, r2) := takeDigits r
  if d.isEmpty || !r2.isEmpty then Option.none
  else if sg = 1 then some { num := m.num * (10 : Int) ^ digitsToNat d, den := m.den }
  else some { num := m.num, den := m.den * 10 ^ digitsToNat d }

/-- Models Python `float(string)` on the literal forms
`[sign] digits [. digits] [(e|E) [sign] digits]` (with at least one digit
in the mantissa), returning the exact represented fraction.  Whitespace
stripping and the inf/nan spellings are not modelled; no claim uses
them. -/
def parseFloat (s : String) : Option PFloat :=
  let (sg, r0) := parseSign s.toList
  let (ip, r1) := takeDigits r0
  let (fp, r2) :=
    match r1 with
    | '.' :: rest => takeDigits rest
    | _ => ([], r1)
  if ip.isEmpty && fp.isEmpty then Option.none
  else
    let mant : PFloat :=
      { num := sg * ((digitsToNat ip * 10 ^ fp.length + digitsToNat fp : Nat) : Int),
        den := 10 ^ fp.length }
    match r2 with
    | [] => some mant
    | 'e' :: rest => parseExpPart mant rest
    | 'E' :: rest => parseExpPart mant rest
    | _ => Option.none

/-- Value of one hexadecimal digit character. -/
def hexDigitVal (c : Char) : Option Nat :=
  if c.isDigit then some (c.toNat - 48)
  else if 'a' ≤ c && c ≤ 'f' then some (c.toNat - 87)
  else if 'A' ≤ c && c ≤ 'F' then some (c.toNat - 55)
  else Option.none

/-- Value of a non-empty digit string in the given base, failing on any
digit out of range. -/
def digitsVal (base : Nat) (l : List Char) : Option Nat :=
  if l.isEmpty then Option.none
  else
    l.foldlM
      (fun acc c =>
        match hexDigitVal c with
        | some d => if d < base then some (base * acc + d) else Option.none
        | Option.none => Option.none)
      0

/-- Models Python 2 `int(string, 0)`: radix determined by prefix — `0x`/`0X`
hexadecimal, `0b`/`0B` binary, `0o`/`0O` octal, a bare leading `0` legacy
octal, plain `0` zero, otherwise decimal.  Whitespace stripping and the
`L` suffix are not modelled; no claim uses them. -/
def parseIntRadix0 (s : String) : Option Int :=
  let (sg, r) := parseSign s.toList
  let fin : Nat → Int := fun n => sg * (n : Int)
  match r with
  | '0' :: 'x' :: rest => (digitsVal 16 rest).map fin
  | '0' :: 'X' :: rest => (digitsVal 16 rest).map fin
  | '0' :: 'b' :: rest => (digitsVal 2 rest).map fin
  | '0' :: 'B' :: rest => (digitsVal 2 rest).map fin
  | '0' :: 'o' :: rest => (digitsVal 8 rest).map fin
  | '0' :: 'O' :: rest => (digitsVal 8 rest).map fin
  | '0' :: rest => if rest.isEmpty then some 0 else (digitsVal 8 rest).map fin
  | _ => (digitsVal 10 r).map fin

/-- Python `int(float)`: truncation toward zero, as integer division of the
numerator by the denominator (`Int.tdiv` rounds toward zero). -/
def ratTrunc (f : PFloat) : Int := Int.tdiv f.num (f.den : Int)

/-- Stand-in for Python `unicode(float)` formatting; no claim depends on
the exact rendering. -/
def floatRepr (f : PFloat) : String := toString f.num ++ "/" ++ toString f.den

/-- Python `value.find(u-dot) >= 0`: does the string contain the
character (written over the char list so it computes by reduction). -/
def strContainsChar (s : String) (c : Char) : Bool :=
  s.toList.any (fun d => d = c)

/-- `Param._convert_scalar` (parameters.py lines 706-714): exact type match
passes through, anything else is a ConversionError. -/
def base_convert_scalar (name : String) (t : PType) (value : PValue)
    (index : Option Nat) : Except PErr PValue :=
  if typeOf value = t then Except.ok value
  else Except.error (PErr.conversion name index "incorrect type")

/-- `Str._convert_scalar` (parameters.py lines 1253-1266): unicode passes
through, int/float are stringified, tuple/list raise the scalar error,
anything else the type error. -/
def str_convert_scalar (name : String) (value : PValue)
    (index : Option Nat) : Except PErr PValue :=
  match value with
  | PValue.uni s => Except.ok (PValue.uni s)
  | PValue.int n => Except.ok (PValue.uni (toString n))
  | PValue.float f => Except.ok (PValue.uni (floatRepr f))
  | PValue.tup _ => Except.error (PErr.conversion name index "Only one value is allowed")
  | PValue.list _ => Except.error (PErr.conversion name index "Only one value is allowed")
  | _ => Except.error (PErr.conversion name index "must be Unicode text")

/-- `Int._convert_scalar` (parameters.py lines 1019-1046): int/long pass
through; a unicode string containing a dot is parsed as a float and
truncated toward zero, otherwise parsed with `int(value, 0)` (radix from
prefix); a bare float is truncated; everything else is a
ConversionError. -/
def int_convert_scalar (name : String) (value : PValue)
    (index : Option Nat) : Except PErr PValue :=
  match value with
  | PValue.int n => Except.ok (PValue.int n)
  | PValue.uni s =>
      if strContainsChar s '.' then
        match parseFloat s with
        | some f => Except.ok (PValue.int (ratTrunc f))
        | Option.none => Except.error (PErr.conversion name index "must be an integer")
      else
        match parseIntRadix0 s with
        | some n => Except.ok (PValue.int n)
        | Option.none => Except.error (PErr.conversion name index "must be an integer")
  | PValue.float f => Except.ok (PValue.int (ratTrunc f))
  | _ => Except.error (PErr.conversion name index "must be an integer")

/-- The virtual `_convert_scalar` dispatch over the modelled variants
(`List._convert_scalar` is the identity, parameters.py lines
1424-1425). -/
def Param.convert_scalar (p : Param) (value : PValue) (index : Option Nat) :
    Except PErr PValue :=
  match p.variant with
  | Variant.base t => base_convert_scalar p.name t value index
  | Variant.strV => str_convert_scalar p.name value index
  | Variant.intV => int_convert_scalar p.name value index
  | Variant.listV => Except.ok value

/-- `Param._normalize_scalar` (parameters.py lines 632-643): only unicode
values reach the normalizer; a raising normalizer is swallowed and the
value kept. -/
def Param.normalize_scalar (p : Param) (value : PValue) : PValue :=
  match value with
  | PValue.uni s =>
      match p.normalizer with
      | Option.none => PValue.uni s
      | some f =>
          match f s with
          | Except.ok r => r
          | Except.error _ => PValue.uni s
  | v => v

/-- `Param.normalize` (parameters.py lines 599-630): identity without a
normalizer; with one, per-scalar application, mapping over a native
sequence (returning a tuple) or wrapping a bare scalar for a multivalue
parameter. -/
def Param.normalize_base (p : Param) (value : PValue) : PValue :=
  match p.normalizer with
  | Option.none => value
  | some _ =>
      if p.multivalue then
        match seqElems value with
        | some vs => PValue.tup (vs.map (Param.normalize_scalar p))
        | Option.none => PValue.tup [Param.normalize_scalar p value]
      else Param.normalize_scalar p value

/-- The tokenisation step of `List.normalize` (parameters.py lines
1415-1421): a non-tuple truthy raw value is split by the csv reader into a
tuple of text tokens.  Non-string inputs crash the csv reader in the
source (AttributeError) and are left unchanged here; that path is
unreachable in the claims. -/
def listTokenized (p : Param) (value : PValue) : PValue :=
  match value with
  | PValue.uni s => PValue.tup ((p.tokenize s).map PValue.uni)
  | PValue.str s => PValue.tup ((p.tokenize s).map PValue.uni)
  | v => v

/-- The virtual `normalize` dispatch: `List.normalize` tokenizes a truthy
non-tuple value before delegating to the base normalizer (parameters.py
lines 1415-1422); every other variant uses the base normalizer
directly. -/
def Param.normalize (p : Param) (value : PValue) : PValue :=
  match p.variant with
  | Variant.listV =>
      if pyTruthy value && !isTupleV value then
        Param.normalize_base p (listTokenized p value)
      else Param.normalize_base p value
  | _ => Param.normalize_base p value

/-- The element loop of `Param.convert` for a multivalue parameter
(parameters.py lines 696-700): enumerate, drop null-equivalent elements,
convert the survivors in order carrying their original index, stopping at
the first conversion failure. -/
def convertFiltered (p : Param) : Nat → List PValue → Except PErr (List PValue)
  | _, [] => Except.ok []
  | i, x :: rest =>
      if pyIsNull x then convertFiltered p (i + 1) rest
      else
        match Param.convert_scalar p x (some i) with
        | Except.error e => Except.error e
        | Except.ok c =>
            match convertFiltered p (i + 1) rest with
            | Except.error e => Except.error e
            | Except.ok cs => Except.ok (c :: cs)

/-- `Param.convert` (parameters.py lines 691-704): null-equivalents become
`None`; a multivalue parameter coerces a bare scalar into a one-element
sequence, filters null-equivalent elements, converts the rest and
collapses an empty result to `None`; a scalar parameter converts
directly. -/
def Param.convert (p : Param) (value : PValue) : Except PErr PValue :=
  if pyIsNull value then Except.ok PValue.none
  else if p.multivalue then
    match convertFiltered p 0 (elemsOrSelf value) with
    | Except.error e => Except.error e
    | Except.ok values =>
        if values.isEmpty then Except.ok PValue.none
        else Except.ok (PValue.tup values)
  else Param.convert_scalar p value Option.none

/-- First failing rule of the composed rule sequence (parameters.py lines
755-767: rules run in order, first non-None message aborts). -/
def firstError (rules : List (PValue → Option String)) (value : PValue) :
    Option String :=
  match rules with
  | [] => Option.none
  | r :: rest =>
      match r value with
      | Option.none => firstError rest value
      | some msg => some msg

/-- The virtual `_validate_scalar` dispatch: the base version
(parameters.py lines 744-767) first asserts the exact runtime type, then
runs the rules (error named after `cli_name`, falling back to `name`);
`List._validate_scalar` (lines 1427-1437) skips the type check and names
errors after `name`. -/
def Param.validate_scalar (p : Param) (value : PValue) (index : Option Nat) :
    Except PErr Unit :=
  match p.variant with
  | Variant.listV =>
      match firstError p.rules value with
      | Option.none => Except.ok ()
      | some msg => Except.error (PErr.validationRule p.name value index msg)
  | _ =>
      if typeOf value ≠ variantType p.variant then
        Except.error (PErr.validationType p.name "incorrect runtime type")
      else
        match firstError p.rules value with
        | Option.none => Except.ok ()
        | some msg =>
            Except.error (PErr.validationRule
              (if p.cli_name = "" then p.name else p.cli_name) value index msg)

/-- The per-element loop of `Param.validate` for a multivalue parameter
(parameters.py lines 739-740): each element is validated with its
position. -/
def validateElems (p : Param) : Nat → List PValue → Except PErr Unit
  | _, [] => Except.ok ()
  | i, x :: rest =>
      match Param.validate_scalar p x (some i) with
      | Except.error e => Except.error e
      | Except.ok _ => validateElems p (i + 1) rest

/-- `Param.validate` (parameters.py lines 716-742): `None` fails with a
RequirementError when required (named after `cli_name` in the cli
context) and passes otherwise; then query parameters pass unchecked; a
multivalue parameter requires a non-empty tuple and validates per
element; a scalar parameter validates the single value. -/
def Param.validate (p : Param) (value : PValue) (context : Option String) :
    Except PErr Unit :=
  if isNoneV value then
    if p.required then
      Except.error (PErr.requirement
        (if context = some "cli" then p.cli_name else p.name))
    else Except.ok ()
  else if p.query then Except.ok ()
  else if p.multivalue then
    match value with
    | PValue.tup vs =>
        if vs.length < 1 then
          Except.error (PErr.valueErr "value: empty tuple must be converted to None")
        else validateElems p 0 vs
    | _ => Except.error (PErr.typeErr "value must be a tuple")
  else Param.validate_scalar p value Option.none

/-- The tail of `Param.get_default` after the hook produced a candidate
(parameters.py lines 872-878): a `None` candidate falls back to the
static default; otherwise the candidate is run through
`convert(normalize(...))`, whose success is returned and whose failure is
swallowed into the static default. -/
def hookFinish (p : Param) (d : PValue) : Except Unit PValue :=
  if isNoneV d then Except.ok p.default
  else
    match Param.convert p (Param.normalize p d) with
    | Except.ok r => Except.ok r
    | Except.error _ => Except.ok p.default

/-- `Param.get_default` (parameters.py lines 871-878): no hook returns the
static default; a `DefaultFrom` hook never raises; a raising
`create_default` hook propagates. -/
def Param.get_default (p : Param) (kw : KwBag) : Except Unit PValue :=
  match p.hook with
  | Hook.noHook => Except.ok p.default
  | Hook.fromDF df => hookFinish p (df.call kw)
  | Hook.fromCreate f =>
      match f kw with
      | Except.error e => Except.error e
      | Except.ok d => hookFinish p d

/-- Formalisation of the spec's words for the List validation claim
(refinement target, not the code): run every configured rule once against
the whole token sequence as a single unit. -/
def spec_list_validate_whole (p : Param) (value : PValue) : Except PErr Unit :=
  match firstError p.rules value with
  | Option.none => Except.ok ()
  | some msg => Except.error (PErr.validationRule p.name value Option.none msg)

/-- The distinct failure modes of the `Data.__init__` length checks
(parameters.py lines 1129-1160). -/
inductive DataErr
  | mixLength
  | minlengthTooSmall
  | maxlengthTooSmall
  | minGtMax
  | minEqMax
deriving DecidableEq

/-- Is the option set to a value below one. -/
def optLtOne : Option Int → Bool
  | some m => m < 1
  | Option.none => false

/-- `Data.__init__`'s constraint checks (parameters.py lines 1129-1160), in
source order: exact length is exclusive with min/max length; each bound
must be at least 1; with both bounds set, min > max and min == max are
rejected. -/
def data_init_check (minlength maxlength length : Option Int) :
    Except DataErr Unit :=
  if ¬(length = Option.none ∨ (minlength = Option.none ∧ maxlength = Option.none)) then
    Except.error DataErr.mixLength
  else if optLtOne minlength then Except.error DataErr.minlengthTooSmall
  else if optLtOne maxlength then Except.error DataErr.maxlengthTooSmall
  else
    match minlength, maxlength with
    | some a, some b =>
        if a > b then Except.error DataErr.minGtMax
        else if a = b then Except.error DataErr.minEqMax
        else Except.ok ()
    | _, _ => Except.ok ()

/-- Failures of the `AccessTime` checker: a `ValueError` with its message,
or an `IndexError` from running off the token list (parameters.py lines
1620-1629 map the latter to an incomplete-value error). -/
inductive CheckErr
  | value (msg : String)
  | index
deriving DecidableEq

/-- Python 2 `unicode.isnumeric` restricted to ASCII digit strings (all
inputs of the grammar are ASCII). -/
def isNumericStr (s : String) : Bool :=
  !s.isEmpty && s.toList.all Char.isDigit

/-- Python slice `s[a:b]`. -/
def strSlice (s : String) (a b : Nat) : String :=
  String.mk ((s.toList.drop a).take (b - a))

/-- Python `int(string)` (base 10, one optional sign), raising ValueError
on a malformed literal. -/
def pyIntParse (s : String) : Except CheckErr Int :=
  let (sg, r) := parseSign s.toList
  if r.isEmpty || !r.all Char.isDigit then
    Except.error (CheckErr.value "invalid literal for int with base 10")
  else Except.ok (sg * (digitsToNat r : Int))

/-- Python `str.split()` with no argument: split on runs of whitespace,
dropping leading/trailing whitespace. -/
def splitWSAux : List Char → List Char → List String
  | [], acc => if acc.isEmpty then [] else [String.mk acc.reverse]
  | c :: rest, acc =>
      if c = ' ' || c = '\t' || c = '\n' || c = '\r' then
        if acc.isEmpty then splitWSAux rest []
        else String.mk acc.reverse :: splitWSAux rest []
      else splitWSAux rest (c :: acc)

/-- Tokenise a time expression (`time.split()`, parameters.py line 1594). -/
def splitWS (s : String) : List String := splitWSAux s.toList []

/-- Token access `ts[i]`, raising IndexError past the end. -/
def getTok (ts : List String) (i : Nat) : Except CheckErr String :=
  match ts.get? i with
  | some t => Except.ok t
  | Option.none => Except.error CheckErr.index

/-- `AccessTime._check_HHMM` (parameters.py lines 1459-1469). -/
def check_HHMM (t : String) : Except CheckErr Unit := do
  if t.length ≠ 4 then throw (CheckErr.value "HHMM must be exactly 4 characters long")
  if !isNumericStr t then throw (CheckErr.value "HHMM non-numeric")
  let hh := strToNat (strSlice t 0 2)
  if hh > 23 then throw (CheckErr.value "HH out of range")
  let mm := strToNat (strSlice t 2 4)
  if mm > 59 then throw (CheckErr.value "MM out of range")

/-- `AccessTime._check_dotw` (parameters.py lines 1471-1477). -/
def check_dotw (t : String) : Except CheckErr Unit :=
  if isNumericStr t then
    let v := strToNat t
    if v < 1 || v > 7 then Except.error (CheckErr.value "day of the week out of range")
    else Except.ok ()
  else if t = "Mon" || t = "Tue" || t = "Wed" || t = "Thu" || t = "Fri" || t = "Sat" || t = "Sun" then
    Except.ok ()
  else Except.error (CheckErr.value "invalid day of the week")

/-- `AccessTime._check_dotm` (parameters.py lines 1479-1495); the month
number and year select 31-, 30-, 29- or 28-day ranges, months outside
1-12 are unchecked (as in the source). -/
def check_dotm (t : String) (month_num : Nat) (year : Nat) : Except CheckErr Unit := do
  if !isNumericStr t then throw (CheckErr.value "day of the month non-numeric")
  let v := strToNat t
  if month_num = 1 || month_num = 3 || month_num = 5 || month_num = 7 ||
      month_num = 8 || month_num = 10 || month_num = 12 then
    if v < 1 || v > 31 then throw (CheckErr.value "day of the month out of range")
  else if month_num = 4 || month_num = 6 || month_num = 9 || month_num = 11 then
    if v < 1 || v > 30 then throw (CheckErr.value "day of the month out of range")
  else if month_num = 2 then
    if year % 4 = 0 && (year % 100 ≠ 0 || year % 400 = 0) then
      if v < 1 || v > 29 then throw (CheckErr.value "day of the month out of range")
    else
      if v < 1 || v > 28 then throw (CheckErr.value "day of the month out of range")

/-- `AccessTime._check_wotm` (parameters.py lines 1497-1502). -/
def check_wotm (t : String) : Except CheckErr Unit := do
  if !isNumericStr t then throw (CheckErr.value "week of the month non-numeric")
  let v := strToNat t
  if v < 1 || v > 6 then throw (CheckErr.value "week of the month out of range")

/-- `AccessTime._check_woty` (parameters.py lines 1504-1509). -/
def check_woty (t : String) : Except CheckErr Unit := do
  if !isNumericStr t then throw (CheckErr.value "week of the year non-numeric")
  let v := strToNat t
  if v < 1 || v > 52 then throw (CheckErr.value "week of the year out of range")

/-- `AccessTime._check_doty` (parameters.py lines 1511-1516). -/
def check_doty (t : String) : Except CheckErr Unit := do
  if !isNumericStr t then throw (CheckErr.value "day of the year non-numeric")
  let v := strToNat t
  if v < 1 || v > 365 then throw (CheckErr.value "day of the year out of range")

/-- `AccessTime._check_month_num` (parameters.py lines 1518-1523). -/
def check_month_num (t : String) : Except CheckErr Unit := do
  if !isNumericStr t then throw (CheckErr.value "month number non-numeric")
  let v := strToNat t
  if v < 1 || v > 12 then throw (CheckErr.value "month number out of range")

/-- `AccessTime._check_interval` (parameters.py lines 1525-1537):
comma-separated items, each a value or a hyphen range; every value is
checked with the supplied checker, then range bounds are compared with
Python `int` (which raises on non-numeric bounds such as `Mon`). -/
def check_interval (t : String) (check_func : String → Except CheckErr Unit) :
    Except CheckErr Unit := do
  let intervals := t.splitOn ","
  for i in intervals do
    if i = "" then throw (CheckErr.value "invalid time range")
    let values := i.splitOn "-"
    if values.length > 2 then throw (CheckErr.value "invalid time range")
    for v in values do
      check_func v
    match values with
    | [a, b] =>
        let x ← pyIntParse a
        let y ← pyIntParse b
        if x > y then throw (CheckErr.value "invalid time range")
    | _ => pure ()

/-- `AccessTime._check_W_spec` (parameters.py lines 1539-1544). -/
def check_W_spec (ts : List String) (index : Nat) : Except CheckErr Nat := do
  let t ← getTok ts index
  if t ≠ "day" then throw (CheckErr.value "invalid week specifier")
  let t1 ← getTok ts (index + 1)
  check_interval t1 check_dotw
  pure (index + 1)

/-- `AccessTime._check_M_spec` (parameters.py lines 1546-1555); the
day-of-month checker runs with the default month/year arguments (1, 4) as
in the source. -/
def check_M_spec (ts : List String) (index : Nat) : Except CheckErr Nat := do
  let t ← getTok ts index
  if t = "week" then
    let t1 ← getTok ts (index + 1)
    check_interval t1 check_wotm
    check_W_spec ts (index + 2)
  else if t = "day" then
    let t1 ← getTok ts (index + 1)
    check_interval t1 (fun s => check_dotm s 1 4)
    pure (index + 1)
  else throw (CheckErr.value "invalid month specifier")

/-- `AccessTime._check_Y_spec` (parameters.py lines 1557-1571); the dead
`month_num = int(ts[index])` assignment is kept because its `int` call can
raise on an interval-shaped token. -/
def check_Y_spec (ts : List String) (index : Nat) : Except CheckErr Nat := do
  let t ← getTok ts index
  if t = "month" then
    let t1 ← getTok ts (index + 1)
    check_interval t1 check_month_num
    let _ ← pyIntParse t1
    check_M_spec ts (index + 2)
  else if t = "week" then
    let t1 ← getTok ts (index + 1)
    check_interval t1 check_woty
    check_W_spec ts (index + 2)
  else if t = "day" then
    let t1 ← getTok ts (index + 1)
    check_interval t1 check_doty
    pure (index + 1)
  else throw (CheckErr.value "invalid year specifier")

/-- `AccessTime._check_generalized` (parameters.py lines 1573-1591): a
10/12/14 digit stamp; month and day-of-month range-checked (day against
the month and leap year), hours/minutes checked (padding a 10-digit stamp
with `00`), seconds 0-60 for a 14-digit stamp; the year is unchecked. -/
def check_generalized (t : String) : Except CheckErr Unit := do
  if t.length ≠ 10 && t.length ≠ 12 && t.length ≠ 14 then
    throw (CheckErr.value "incomplete generalized time")
  if !isNumericStr t then throw (CheckErr.value "time non-numeric")
  check_month_num (strSlice t 4 6)
  let year_num := strToNat (strSlice t 0 4)
  let month_num := strToNat (strSlice t 4 6)
  check_dotm (strSlice t 6 8) month_num year_num
  if t.length ≥ 12 then check_HHMM (strSlice t 8 12)
  else check_HHMM (strSlice t 8 10 ++ "00")
  if t.length = 14 then
    let s := strToNat (strSlice t 12 14)
    if s > 60 then throw (CheckErr.value "seconds out of range")

/-- The `periodic` branch of `AccessTime._check` (parameters.py lines
1604-1616). -/
def periodic_check (ts : List String) : Except CheckErr Unit := do
  let t1 ← getTok ts 1
  if t1 = "yearly" then
    let index ← check_Y_spec ts 2
    let tI ← getTok ts (index + 1)
    check_interval tI check_HHMM
  else if t1 = "monthly" then
    let index ← check_M_spec ts 2
    let tI ← getTok ts (index + 1)
    check_interval tI check_HHMM
  else if t1 = "weekly" then
    let index ← check_W_spec ts 2
    let tI ← getTok ts (index + 1)
    check_interval tI check_HHMM
  else if t1 = "daily" then
    let tI ← getTok ts 2
    check_interval tI check_HHMM
  else throw (CheckErr.value "period must be yearly, monthy or daily")

/-- `AccessTime._check` on the already-split token list (parameters.py
lines 1593-1618); the absolute branch is written with explicit matches to
mirror the straight-line source. -/
def accessTime_check_ts (ts : List String) : Except CheckErr Unit :=
  match getTok ts 0 with
  | Except.error e => Except.error e
  | Except.ok t0 =>
    if t0 = "absolute" then
      if ts.length ≠ 4 then
        Except.error (CheckErr.value "invalid format, must be absolute generalizedTime ~ generalizedTime")
      else
        match getTok ts 1 with
        | Except.error e => Except.error e
        | Except.ok t1 =>
          match check_generalized t1 with
          | Except.error e => Except.error e
          | Except.ok _ =>
            match getTok ts 2 with
            | Except.error e => Except.error e
            | Except.ok t2 =>
              if t2 ≠ "~" then Except.error (CheckErr.value "invalid time range separator")
              else
                match getTok ts 3 with
                | Except.error e => Except.error e
                | Except.ok t3 =>
                  match check_generalized t3 with
                  | Except.error e => Except.error e
                  | Except.ok _ =>
                    if strToNat t1 ≥ strToNat t3 then
                      Except.error (CheckErr.value "invalid time range")
                    else Except.ok ()
    else if t0 = "periodic" then periodic_check ts
    else Except.error (CheckErr.value "time neither absolute or periodic")

/-- `AccessTime._check` on the raw expression (parameters.py line 1594
splits on whitespace first). -/
def accessTime_check (time : String) : Except CheckErr Unit :=
  accessTime_check_ts (splitWS time)

/-- A scalar `Str` parameter with a normalizer that appends a character
(used to exercise the normalize stage). -/
def pStrNorm : Param :=
  { name := "s", cli_name := "s", variant := Variant.strV,
    normalizer := some (fun s => Except.ok (PValue.uni (s ++ "x"))) }

/-- A scalar `Str` parameter whose `create_default` hook returns the
integer 42. -/
def pStrCD : Param :=
  { name := "s", cli_name := "s", variant := Variant.strV,
    hook := Hook.fromCreate (fun _ => Except.ok (PValue.int 42)) }

/-- A scalar `Str` parameter whose `create_default` hook returns a bytes
value that `Str._convert_scalar` rejects. -/
def pStrCDBad : Param :=
  { name := "s", cli_name := "s", variant := Variant.strV,
    default := PValue.uni "fallback",
    hook := Hook.fromCreate (fun _ => Except.ok (PValue.str "raw")) }

/-- A required query parameter. -/
def pQueryReq : Param :=
  { name := "q", cli_name := "q", variant := Variant.base PType.noneT,
    query := true, required := true }

/-- A `List` parameter with one rule that accepts a whole tuple and rejects
any scalar. -/
def pListC : Param :=
  { name := "l", cli_name := "l", variant := Variant.listV, multivalue := true,
    rules := [fun v => match v with
      | PValue.tup _ => Option.none
      | _ => some "err"] }

/-- A multivalue `Str` parameter with no rules and no normalizer. -/
def pMulti : Param :=
  { name := "m", cli_name := "m", variant := Variant.strV, multivalue := true }

/-! Shared helper lemmas about the embedded definitions. -/

theorem isNoneV_eq_true_iff (v : PValue) : isNoneV v = true ↔ v = PValue.none := by
  cases v <;> simp [isNoneV]

theorem isNoneV_eq_false_of_not_null (v : PValue) (h : pyIsNull v = false) :
    isNoneV v = false := by
  cases v <;> simp_all [isNoneV, pyIsNull]

theorem typeOf_eq_uniT (v : PValue) (h : typeOf v = PType.uniT) :
    ∃ s, v = PValue.uni s := by
  cases v <;> simp_all [typeOf]

theorem typeOf_eq_intT (v : PValue) (h : typeOf v = PType.intT) :
    ∃ n, v = PValue.int n := by
  cases v <;> simp_all [typeOf]

theorem convert_scalar_id (p : Param) (v : PValue) (idx : Option Nat)
    (h : typeOf v = variantType p.variant) :
    Param.convert_scalar p v idx = Except.ok v := by
  cases hv : p.variant with
  | base t =>
      rw [hv] at h
      simp only [variantType] at h
      simp [Param.convert_scalar, hv, base_convert_scalar, h, variantType]
  | strV =>
      rw [hv] at h
      simp only [variantType] at h
      obtain ⟨s, rfl⟩ := typeOf_eq_uniT v h
      simp [Param.convert_scalar, hv, str_convert_scalar]
  | intV =>
      rw [hv] at h
      simp only [variantType] at h
      obtain ⟨n, rfl⟩ := typeOf_eq_intT v h
      simp [Param.convert_scalar, hv, int_convert_scalar]
  | listV => simp [Param.convert_scalar, hv]

theorem validate_scalar_typed (p : Param) (v : PValue) (idx : Option Nat)
    (hvar : p.variant ≠ Variant.listV)
    (h : Param.validate_scalar p v idx = Except.ok ()) :
    typeOf v = variantType p.variant := by
  cases hv : p.variant with
  | listV => exact absurd hv hvar
  | base t =>
      by_contra hne
      simp [Param.validate_scalar, hv, hne] at h
  | strV =>
      by_contra hne
      simp [Param.validate_scalar, hv, hne] at h
  | intV =>
      by_contra hne
      simp [Param.validate_scalar, hv, hne] at h

theorem validateElems_ok (p : Param) :
    ∀ (vs : List PValue) (i : Nat), validateElems p i vs = Except.ok () →
      ∀ x ∈ vs, ∃ j, Param.validate_scalar p x (some j) = Except.ok () := by
  intro vs
  induction vs with
  | nil => intro i h x hx; cases hx
  | cons a rest ih =>
      intro i h x hx
      cases hscal : Param.validate_scalar p a (some i) with
      | error e => simp [validateElems, hscal] at h
      | ok u =>
          rw [List.mem_cons] at hx
          rcases hx with rfl | hx
          · exact ⟨i, hscal⟩
          · simp only [validateElems, hscal] at h
            exact ih (i + 1) h x hx

theorem validateElems_list_iff (p : Param) (hv : p.variant = Variant.listV) :
    ∀ (vs : List PValue) (i : Nat),
      validateElems p i vs = Except.ok () ↔ ∀ x ∈ vs, firstError p.rules x = Option.none := by
  intro vs
  induction vs with
  | nil => intro i; simp [validateElems]
  | cons a rest ih =>
      intro i
      cases hfe : firstError p.rules a with
      | none =>
          simp only [validateElems, Param.validate_scalar, hv, hfe]
          simp [ih (i + 1), hfe]
      | some m =>
          simp only [validateElems, Param.validate_scalar, hv, hfe]
          simp [hfe]

theorem convertFiltered_allNull (p : Param) :
    ∀ (vs : List PValue) (i : Nat), (∀ x ∈ vs, pyIsNull x = true) →
      convertFiltered p i vs = Except.ok [] := by
  intro vs
  induction vs with
  | nil => intro i h; rfl
  | cons a rest ih =>
      intro i h
      have ha := h a (by simp)
      simp [convertFiltered, ha, ih (i + 1) (fun x hx => h x (by simp [hx]))]

theorem convertFiltered_id (p : Param) :
    ∀ (vs : List PValue) (i : Nat),
      (∀ x ∈ vs, pyIsNull x = false) →
      (∀ x ∈ vs, ∀ idx, Param.convert_scalar p x idx = Except.ok x) →
      convertFiltered p i vs = Except.ok vs := by
  intro vs
  induction vs with
  | nil => intro i hn hc; rfl
  | cons a rest ih =>
      intro i hn hc
      have ha := hn a (by simp)
      have hca := hc a (by simp) (some i)
      simp [convertFiltered, ha, hca,
        ih (i + 1) (fun x hx => hn x (by simp [hx])) (fun x hx => hc x (by simp [hx]))]

theorem normalize_id (p : Param) (v : PValue) (hnorm : p.normalizer = Option.none)
    (hv : p.variant = Variant.listV → (v = PValue.none ∨ isTupleV v = true)) :
    Param.normalize p v = v := by
  have hbase : Param.normalize_base p v = v := by
    simp [Param.normalize_base, hnorm]
  cases hvar : p.variant with
  | listV =>
      rcases hv hvar with rfl | ht
      · simp [Param.normalize, hvar, pyTruthy, hbase]
      · simp [Param.normalize, hvar, ht, hbase]
  | base t => simp [Param.normalize, hvar, hbase]
  | strV => simp [Param.normalize, hvar, hbase]
  | intV => simp [Param.normalize, hvar, hbase]

/-! Claim theorems. -/

/-- Claim C6: calling a DefaultFrom whose keyword bag lacks one of its
declared keys (or binds it to null) evaluates to null for every possible
callback (so the callback is never consulted); and when every key is
present and non-null, a failure raised by the callback is swallowed and
the call evaluates to null. -/
theorem default_from_missing_key_or_failure_yields_none :
    (∀ (keys : List String) (kw : KwBag),
        (∃ k ∈ keys, kwGet kw k = PValue.none) →
        ∀ cb : List PValue → Except Unit PValue,
          DefaultFrom.call { keys := keys, callback := cb } kw = PValue.none) ∧
    (∀ (df : DefaultFrom) (kw : KwBag),
        (∀ k ∈ df.keys, kwGet kw k ≠ PValue.none) →
        ∀ e : Unit, df.callback (df.keys.map (fun k => kwGet kw k)) = Except.error e →
          df.call kw = PValue.none) := by
  constructor
  · rintro keys kw ⟨k, hk, hkv⟩ cb
    have hany : (keys.map (fun k => kwGet kw k)).any isNoneV = true := by
      rw [List.any_eq_true]
      exact ⟨kwGet kw k, List.mem_map_of_mem _ hk, by rw [hkv]; rfl⟩
    simp [DefaultFrom.call, hany]
  · intro df kw hpres e herr
    cases hany : (df.keys.map (fun k => kwGet kw k)).any isNoneV with
    | true =>
        exfalso
        obtain ⟨x, hx, hxn⟩ := List.any_eq_true.mp hany
        obtain ⟨k, hk, rfl⟩ := List.mem_map.mp hx
        exact hpres k hk ((isNoneV_eq_true_iff _).mp hxn)
    | false => simp [DefaultFrom.call, hany, herr]

/-- Witness for C6 at concrete inputs: a missing key, and a raising
callback with the key present. -/
theorem default_from_missing_key_or_failure_yields_none_witness :
    DefaultFrom.call { keys := ["k"], callback := fun _ => Except.ok (PValue.uni "v") } [] = PValue.none ∧
    DefaultFrom.call { keys := ["k"], callback := fun _ => Except.error () } [("k", PValue.uni "x")] = PValue.none := by
  constructor
  · exact default_from_missing_key_or_failure_yields_none.1 ["k"] []
      ⟨"k", by simp, rfl⟩ _
  · refine default_from_missing_key_or_failure_yields_none.2 _ _ ?_ () rfl
    intro k hk
    simp only [List.mem_singleton] at hk
    subst hk
    simp [kwGet]

/-- Claim C7: setting both default-producing hooks is rejected with the
construction-time ValueError, while any configuration with at most one
hook passes this check and selects that hook. -/
theorem default_hook_mutual_exclusion :
    (∀ (df : DefaultFrom) (f : KwBag → Except Unit PValue),
        resolve_default_hook (some df) (some f) =
          Except.error "cannot have both default_from and create_default") ∧
    (∀ df, resolve_default_hook (some df) Option.none = Except.ok (Hook.fromDF df)) ∧
    (∀ f, resolve_default_hook Option.none (some f) = Except.ok (Hook.fromCreate f)) ∧
    resolve_default_hook Option.none Option.none = Except.ok Hook.noHook :=
  ⟨fun _ _ => rfl, fun _ => rfl, fun _ => rfl, rfl⟩

/-- Witness for C7 at concrete hooks. -/
theorem default_hook_mutual_exclusion_witness :
    resolve_default_hook (some { keys := [], callback := fun _ => Except.ok PValue.none })
        (some (fun _ => Except.ok PValue.none)) =
      Except.error "cannot have both default_from and create_default" :=
  default_hook_mutual_exclusion.1 _ _

/-- Claim C8: the Data length checks — an exact length combined with
minlength or maxlength fails with the mixing error, minlength greater
than maxlength fails, minlength equal to maxlength fails, and minlength
at least one and strictly below maxlength (without exact length) passes
them. -/
theorem data_length_bounds_check :
    (∀ (l : Int) (mn mx : Option Int), ¬(mn = Option.none ∧ mx = Option.none) →
        data_init_check mn mx (some l) = Except.error DataErr.mixLength) ∧
    (∀ a b : Int, a > b →
        ∃ e, data_init_check (some a) (some b) Option.none = Except.error e) ∧
    (∀ a : Int, ∃ e, data_init_check (some a) (some a) Option.none = Except.error e) ∧
    (∀ a b : Int, 1 ≤ a → a < b →
        data_init_check (some a) (some b) Option.none = Except.ok ()) := by
  refine ⟨?_, ?_, ?_, ?_⟩
  · intro l mn mx h
    simp [data_init_check, h]
  · intro a b hab
    by_cases ha : a < 1
    · exact ⟨DataErr.minlengthTooSmall, by simp [data_init_check, optLtOne, ha]⟩
    · by_cases hb : b < 1
      · exact ⟨DataErr.maxlengthTooSmall, by simp [data_init_check, optLtOne, ha, hb]⟩
      · exact ⟨DataErr.minGtMax, by simp [data_init_check, optLtOne, ha, hb, hab]⟩
  · intro a
    by_cases ha : a < 1
    · exact ⟨DataErr.minlengthTooSmall, by simp [data_init_check, optLtOne, ha]⟩
    · exact ⟨DataErr.minEqMax, by simp [data_init_check, optLtOne, ha]⟩
  · intro a b h1 h2
    have ha : ¬(a < 1) := by omega
    have hb : ¬(b < 1) := by omega
    have hab : ¬(a > b) := by omega
    have hne : a ≠ b := by omega
    simp [data_init_check, optLtOne, ha, hb, hab, hne]

/-- Witness for C8 at concrete bounds. -/
theorem data_length_bounds_check_witness :
    data_init_check (some 2) (some 3) Option.none = Except.ok () ∧
    (∃ e, data_init_check (some 5) (some 2) Option.none = Except.error e) ∧
    (∃ e, data_init_check (some 2) (some 2) Option.none = Except.error e) ∧
    data_init_check (some 2) Option.none (some 4) = Except.error DataErr.mixLength :=
  ⟨data_length_bounds_check.2.2.2 2 3 (by norm_num) (by norm_num),
   data_length_bounds_check.2.1 5 2 (by norm_num),
   data_length_bounds_check.2.2.1 2,
   data_length_bounds_check.1 4 (some 2) Option.none (by simp)⟩

/-- Claim C2 counterexample: a query parameter constructed with
required=True still raises RequirementError on validate(None) — the
required check runs before the query shortcut. -/
theorem query_param_null_required_counterexample :
    pQueryReq.query = true ∧ pQueryReq.required = true ∧
    Param.validate pQueryReq PValue.none Option.none =
      Except.error (PErr.requirement "q") :=
  ⟨rfl, rfl, rfl⟩

/-- Claim C2 amended: a query parameter accepts every non-null value
unchecked, but a null value is still subject to the required check, so
validate succeeds exactly when the value is non-null or the parameter is
not required. -/
theorem query_param_validate_characterization (p : Param) (v : PValue)
    (ctx : Option String) (hq : p.query = true) :
    Param.validate p v ctx = Except.ok () ↔
      (isNoneV v = false ∨ p.required = false) := by
  cases hn : isNoneV v with
  | true =>
      cases hr : p.required <;> simp [Param.validate, hn, hr]
  | false => simp [Param.validate, hn, hq]

/-- Witness for C2's amended theorem at a concrete non-null value. -/
theorem query_param_validate_characterization_witness :
    Param.validate pQueryReq (PValue.int 7) Option.none = Except.ok () :=
  (query_param_validate_characterization pQueryReq (PValue.int 7) Option.none rfl).mpr
    (Or.inl rfl)

/-- Claim C10: Int scalar conversion is radix-aware and truncating — a
dot-free unicode string parses with automatic radix detection (0x10 gives
16, 010 gives 8), a dotted string parses as a float truncated toward zero
(1.9 gives 1), a bare float is likewise truncated, an int passes through,
and bytes, bool or sequence inputs raise a ConversionError. -/
theorem int_convert_scalar_radix_and_truncation :
    int_convert_scalar "i" (PValue.uni "0x10") Option.none = Except.ok (PValue.int 16) ∧
    int_convert_scalar "i" (PValue.uni "010") Option.none = Except.ok (PValue.int 8) ∧
    int_convert_scalar "i" (PValue.uni "1.9") Option.none = Except.ok (PValue.int 1) ∧
    (∀ (s : String) (f : PFloat) (idx : Option Nat), strContainsChar s '.' = true →
        parseFloat s = some f →
        int_convert_scalar "i" (PValue.uni s) idx = Except.ok (PValue.int (ratTrunc f))) ∧
    (∀ (s : String) (n : Int) (idx : Option Nat), strContainsChar s '.' = false →
        parseIntRadix0 s = some n →
        int_convert_scalar "i" (PValue.uni s) idx = Except.ok (PValue.int n)) ∧
    (∀ (f : PFloat) (idx : Option Nat),
        int_convert_scalar "i" (PValue.float f) idx = Except.ok (PValue.int (ratTrunc f))) ∧
    (∀ (n : Int) (idx : Option Nat),
        int_convert_scalar "i" (PValue.int n) idx = Except.ok (PValue.int n)) ∧
    (∀ (s : String) (idx : Option Nat),
        int_convert_scalar "i" (PValue.str s) idx =
          Except.error (PErr.conversion "i" idx "must be an integer")) ∧
    (∀ (b : Bool) (idx : Option Nat),
        int_convert_scalar "i" (PValue.bool b) idx =
          Except.error (PErr.conversion "i" idx "must be an integer")) ∧
    (∀ (vs : List PValue) (idx : Option Nat),
        int_convert_scalar "i" (PValue.tup vs) idx =
          Except.error (PErr.conversion "i" idx "must be an integer")) := by
  refine ⟨rfl, rfl, rfl, ?_, ?_, fun _ _ => rfl, fun _ _ => rfl, fun _ _ => rfl,
    fun _ _ => rfl, fun _ _ => rfl⟩
  · intro s f idx hdot hparse
    simp [int_convert_scalar, hdot, hparse]
  · intro s n idx hdot hparse
    simp [int_convert_scalar, hdot, hparse]

/-- Witness for C10's general conjuncts at a concrete dotted string. -/
theorem int_convert_scalar_radix_and_truncation_witness :
    int_convert_scalar "i" (PValue.uni "2.5") Option.none =
      Except.ok (PValue.int (ratTrunc { num := 25, den := 10 })) :=
  int_convert_scalar_radix_and_truncation.2.2.2.1 "2.5" { num := 25, den := 10 }
    Option.none rfl rfl

/-- Claim C1 counterexample: a Str parameter whose create_default hook
returns the integer 42 — get_default returns the value converted to text,
not the hook's return value as-is. -/
theorem create_default_value_not_used_as_is_counterexample :
    Param.get_default pStrCD [] = Except.ok (PValue.uni "42") ∧
    Param.get_default pStrCD [] ≠ Except.ok (PValue.int 42) :=
  ⟨rfl, fun h => PValue.noConfusion (Except.ok.inj h)⟩

/-- Claim C1 amended: a non-null value returned by the create_default hook
is passed through normalize and convert before being handed back — the
converted result is returned when the pipeline succeeds, and the static
default when it fails. -/
theorem create_default_value_passes_through_pipeline :
    (∀ (p : Param) (kw : KwBag) (f : KwBag → Except Unit PValue) (v r : PValue),
        p.hook = Hook.fromCreate f → f kw = Except.ok v → isNoneV v = false →
        Param.convert p (Param.normalize p v) = Except.ok r →
        Param.get_default p kw = Except.ok r) ∧
    (∀ (p : Param) (kw : KwBag) (f : KwBag → Except Unit PValue) (v : PValue) (e : PErr),
        p.hook = Hook.fromCreate f → f kw = Except.ok v → isNoneV v = false →
        Param.convert p (Param.normalize p v) = Except.error e →
        Param.get_default p kw = Except.ok p.default) := by
  constructor
  · intro p kw f v r hh hf hv hc
    simp [Param.get_default, hh, hf, hookFinish, hv, hc]
  · intro p kw f v e hh hf hv hc
    simp [Param.get_default, hh, hf, hookFinish, hv, hc]

/-- Witness for C1's amended theorem: the converting hook result and the
fallback on a non-convertible hook result. -/
theorem create_default_value_passes_through_pipeline_witness :
    Param.get_default pStrCD [] = Except.ok (PValue.uni "42") ∧
    Param.get_default pStrCDBad [] = Except.ok (PValue.uni "fallback") := by
  constructor
  · exact create_default_value_passes_through_pipeline.1 pStrCD [] _
      (PValue.int 42) (PValue.uni "42") rfl rfl rfl rfl
  · exact create_default_value_passes_through_pipeline.2 pStrCDBad [] _
      (PValue.str "raw") (PErr.conversion "s" Option.none "must be Unicode text")
      rfl rfl rfl rfl

/-- Claim C3 counterexample: a List parameter with one rule that accepts a
whole tuple and rejects any scalar — validating the token tuple under the
spec's whole-sequence reading succeeds, but the code fails because it
applies the rule to the first element, reporting that element and its
index. -/
theorem list_rules_whole_sequence_counterexample :
    spec_list_validate_whole pListC (PValue.tup [PValue.uni "a"]) = Except.ok () ∧
    Param.validate pListC (PValue.tup [PValue.uni "a"]) Option.none =
      Except.error (PErr.validationRule "l" (PValue.uni "a") (some 0) "err") :=
  ⟨rfl, rfl⟩

/-- Claim C3 amended: for a List parameter the configured rules run once
per element of the token sequence (List only drops the per-element type
check); validation succeeds exactly when the sequence is non-empty and
every element passes every rule. -/
theorem list_rules_run_per_element (p : Param) (vs : List PValue)
    (ctx : Option String) (hvar : p.variant = Variant.listV)
    (hq : p.query = false) (hm : p.multivalue = true) :
    Param.validate p (PValue.tup vs) ctx = Except.ok () ↔
      (vs ≠ [] ∧ ∀ x ∈ vs, firstError p.rules x = Option.none) := by
  cases vs with
  | nil => simp [Param.validate, isNoneV, hq, hm, validateElems]
  | cons a rest =>
      simp only [Param.validate, isNoneV, hq, hm]
      simp [validateElems_list_iff p hvar (a :: rest) 0]

/-- Witness for C3's amended theorem: a one-token list whose token passes
the rule. -/
theorem list_rules_run_per_element_witness :
    Param.validate pListC (PValue.tup [PValue.tup []]) Option.none = Except.ok () := by
  refine (list_rules_run_per_element pListC [PValue.tup []] Option.none rfl rfl rfl).mpr
    ⟨by simp, ?_⟩
  intro x hx
  simp only [List.mem_singleton] at hx
  subst hx
  rfl

/-- Claim C4: for a multivalue parameter, convert never returns an empty
sequence — it collapses an all-null (or null-equivalent) input to None
and coerces a bare scalar into a one-element sequence before
conversion. -/
theorem multivalue_convert_never_empty (p : Param) (hm : p.multivalue = true) :
    (∀ v, Param.convert p v ≠ Except.ok (PValue.tup [])) ∧
    (∀ vs, (∀ x ∈ vs, pyIsNull x = true) →
        Param.convert p (PValue.tup vs) = Except.ok PValue.none) ∧
    (∀ v, pyIsNull v = false → seqElems v = Option.none →
        Param.convert p v = Param.convert p (PValue.tup [v])) := by
  refine ⟨?_, ?_, ?_⟩
  · intro v h
    cases hn : pyIsNull v with
    | true => simp [Param.convert, hn] at h
    | false =>
        simp only [Param.convert, hn, hm] at h
        simp only [Bool.false_eq_true, if_false, if_true] at h
        cases hcf : convertFiltered p 0 (elemsOrSelf v) with
        | error e => simp [hcf] at h
        | ok values =>
            cases hemp : values.isEmpty with
            | true => simp [hcf, hemp] at h
            | false =>
                simp [hcf, hemp] at h
                rw [h] at hemp
                simp [List.isEmpty] at hemp
  · intro vs hnull
    cases hn : pyIsNull (PValue.tup vs) with
    | true => simp [Param.convert, hn]
    | false =>
        simp [Param.convert, hn, hm, elemsOrSelf, seqElems,
          convertFiltered_allNull p vs 0 hnull, List.isEmpty]
  · intro v hv hs
    have h1 : pyIsNull (PValue.tup [v]) = false := by simp [pyIsNull, List.isEmpty]
    have he : elemsOrSelf v = [v] := by unfold elemsOrSelf; rw [hs]
    have he2 : elemsOrSelf (PValue.tup [v]) = [v] := rfl
    simp [Param.convert, hv, h1, hm, he, he2]

/-- Witness for C4: an all-null element list collapses to None, a bare
scalar converts like its one-element sequence, and a null-equivalent raw
value does not produce an empty tuple. -/
theorem multivalue_convert_never_empty_witness :
    Param.convert pMulti (PValue.tup [PValue.none, PValue.uni ""]) = Except.ok PValue.none ∧
    Param.convert pMulti (PValue.uni "a") = Param.convert pMulti (PValue.tup [PValue.uni "a"]) ∧
    Param.convert pMulti (PValue.list []) ≠ Except.ok (PValue.tup []) := by
  have h := multivalue_convert_never_empty pMulti rfl
  refine ⟨h.2.1 _ ?_, h.2.2 _ rfl rfl, h.1 _⟩
  intro x hx
  simp only [List.mem_cons, List.mem_singleton, List.not_mem_nil, or_false] at hx
  rcases hx with rfl | rfl <;> rfl

/-- Claim C5 counterexample: with a normalizer configured, the canonical
value obtained by one pipeline pass on the text a is accepted by validate
but changed by another pipeline pass, refuting idempotence as stated for
every parameter. -/
theorem pipeline_idempotence_counterexample :
    Param.convert pStrNorm (Param.normalize pStrNorm (PValue.uni "a")) =
      Except.ok (PValue.uni "ax") ∧
    Param.validate pStrNorm (PValue.uni "ax") Option.none = Except.ok () ∧
    Param.convert pStrNorm (Param.normalize pStrNorm (PValue.uni "ax")) =
      Except.ok (PValue.uni "axx") ∧
    PValue.uni "axx" ≠ PValue.uni "ax" :=
  ⟨rfl, rfl, rfl, by simp⟩

/-- Claim C5 amended: idempotence holds for every non-query parameter with
no normalizer — every validate-accepted value that is null, or is free of
null-equivalent components, satisfies convert(normalize(v)) = v (a List
parameter is always multivalue, as its constructor forces). -/
theorem pipeline_idempotence_no_normalizer (p : Param) (v : PValue)
    (ctx : Option String)
    (hnorm : p.normalizer = Option.none)
    (hq : p.query = false)
    (hlist : p.variant = Variant.listV → p.multivalue = true)
    (hval : Param.validate p v ctx = Except.ok ())
    (hnn : v = PValue.none ∨
      (pyIsNull v = false ∧ ∀ x ∈ elemsOrSelf v, pyIsNull x = false)) :
    Param.convert p (Param.normalize p v) = Except.ok v := by
  rcases hnn with rfl | ⟨hv, helems⟩
  · rw [normalize_id p PValue.none hnorm (fun _ => Or.inl rfl)]
    simp [Param.convert, pyIsNull]
  · have hnv : isNoneV v = false := isNoneV_eq_false_of_not_null v hv
    cases hm : p.multivalue with
    | false =>
        have hvarlist : p.variant ≠ Variant.listV := by
          intro h
          rw [hlist h] at hm
          cases hm
        simp only [Param.validate, hnv, hq, hm] at hval
        simp only [Bool.false_eq_true, if_false] at hval
        have hty := validate_scalar_typed p v Option.none hvarlist hval
        rw [normalize_id p v hnorm (fun h => absurd h hvarlist)]
        simp [Param.convert, hv, hm, convert_scalar_id p v Option.none hty]
    | true =>
        simp only [Param.validate, hnv, hq, hm] at hval
        simp only [Bool.false_eq_true, if_false, if_true] at hval
        cases v with
        | tup vs =>
            have hlen : ¬(vs.length < 1) := by
              by_contra hcon
              simp [hcon] at hval
            have hve : validateElems p 0 vs = Except.ok () := by
              simpa [hlen] using hval
            have hconv : ∀ x ∈ vs, ∀ idx, Param.convert_scalar p x idx = Except.ok x := by
              intro x hx idx
              obtain ⟨j, hj⟩ := validateElems_ok p vs 0 hve x hx
              by_cases hl : p.variant = Variant.listV
              · simp [Param.convert_scalar, hl]
              · exact convert_scalar_id p x idx (validate_scalar_typed p x (some j) hl hj)
            rw [normalize_id p (PValue.tup vs) hnorm (fun _ => Or.inr rfl)]
            have hvsne : vs.isEmpty = false := by
              cases vs with
              | nil => simp at hlen
              | cons a rest => rfl
            have helems' : ∀ x ∈ vs, pyIsNull x = false := by
              intro x hx
              exact helems x (by simpa [elemsOrSelf, seqElems] using hx)
            simp [Param.convert, hv, hm, elemsOrSelf, seqElems,
              convertFiltered_id p vs 0 helems' hconv, hvsne]
        | none => simp [isNoneV] at hnv
        | bool b => simp at hval
        | int n => simp at hval
        | float f => simp at hval
        | str s => simp at hval
        | uni s => simp at hval
        | list vs => simp at hval

/-- Witness for C5's amended theorem at a concrete multivalue Str
parameter and token tuple. -/
theorem pipeline_idempotence_no_normalizer_witness :
    Param.convert pMulti (Param.normalize pMulti (PValue.tup [PValue.uni "a"])) =
      Except.ok (PValue.tup [PValue.uni "a"]) := by
  refine pipeline_idempotence_no_normalizer pMulti (PValue.tup [PValue.uni "a"])
    Option.none rfl rfl (fun _ => rfl) rfl (Or.inr ⟨rfl, ?_⟩)
  intro x hx
  simp only [elemsOrSelf, seqElems, List.mem_singleton] at hx
  subst hx
  rfl

/-- Claim C9: an absolute access-time expression over two well-formed
generalized-time stamps validates exactly when the first stamp is
strictly before the second (numeric comparison of the digit strings, as
the code compares their integer values); in particular the example range
validates and its reversal fails with the range error. -/
theorem access_time_absolute_range_check :
    (∀ t1 t3 : String,
        check_generalized t1 = Except.ok () → check_generalized t3 = Except.ok () →
        (accessTime_check_ts ["absolute", t1, "~", t3] = Except.ok () ↔
          strToNat t1 < strToNat t3)) ∧
    accessTime_check "absolute 201401010000 ~ 201412312359" = Except.ok () ∧
    accessTime_check "absolute 201412312359 ~ 201401010000" =
      Except.error (CheckErr.value "invalid time range") := by
  refine ⟨?_, rfl, rfl⟩
  intro t1 t3 h1 h3
  have e1 : accessTime_check_ts ["absolute", t1, "~", t3] =
      (match check_generalized t1 with
       | Except.error e => Except.error e
       | Except.ok _ =>
         match check_generalized t3 with
         | Except.error e => Except.error e
         | Except.ok _ =>
           if strToNat t1 ≥ strToNat t3 then Except.error (CheckErr.value "invalid time range")
           else Except.ok ()) := rfl
  rw [e1, h1, h3]
  by_cases hlt : strToNat t1 < strToNat t3
  · have hge : ¬(strToNat t1 ≥ strToNat t3) := by omega
    simp [hge, hlt]
  · have hge : strToNat t1 ≥ strToNat t3 := by omega
    simp [hge, hlt]

/-- Witness for C9's general conjunct at the concrete token list of the
validating example. -/
theorem access_time_absolute_range_check_witness :
    accessTime_check_ts ["absolute", "201401010000", "~", "201412312359"] = Except.ok () :=
  (access_time_absolute_range_check.1 "201401010000" "201412312359" rfl rfl).mpr
    (by decide)
